import Mathlib

set_option linter.unusedVariables false

/-!
A Lean model of the availability monitor in `site_monitor.py`.

The network is made explicit: each probe reads a `ProbeEnv` describing what
the HEAD and GET requests would return, and the monitor loop reads a stream
of `IterInput` values describing, per iteration, the wall clock, the probe
environments, the notifier result, and whether an interrupt arrives.
Wall-clock times are seconds since an epoch (`Nat`); Python datetime
subtraction is modelled by casting to `Int` before subtracting.  Python
`int(...)` parsing, `str.split`, `str.lower` and substring membership are
modelled by the structurally recursive helpers below.  All functions are
fuel or structurally recursive translations of the Python control flow.
-/

/-- The fixed multi-language keyword list `DOWN_KEYWORDS` from the source. -/
def DOWN_KEYWORDS : List String :=
  ["maintenance", "indisponible", "unavailable", "service temporairement",
   "temporarily unavailable", "en cours de maintenance", "hors service"]

/-- A single-quote character as a string, used when building reason strings. -/
def quoteStr : String := String.mk [Char.ofNat 39]

/-- Does `pat` occur at the start of `s`?  (List-of-characters level.) -/
def listHasPre (pat s : List Char) : Bool :=
  match pat, s with
  | [], _ => true
  | _ :: _, [] => false
  | p :: ps, c :: cs => p == c && listHasPre ps cs

/-- Does `pat` occur anywhere inside `s`?  (List-of-characters level.) -/
def listSubstr (pat s : List Char) : Bool :=
  match s with
  | [] => listHasPre pat []
  | _ :: cs => listHasPre pat s || listSubstr pat cs

/-- Python substring membership `pat in s` on strings. -/
def substrB (pat s : String) : Bool :=
  listSubstr pat.data s.data

/-- Python `str.lower()` restricted to ASCII, which covers every keyword
and status line the monitor builds. -/
def lowerStr (s : String) : String :=
  String.mk (s.data.map Char.toLower)

/-- Split a character list at every occurrence of `sep`. -/
def splitOnChar (sep : Char) : List Char → List (List Char)
  | [] => [[]]
  | c :: cs =>
    let r := splitOnChar sep cs
    if c == sep then [] :: r
    else
      match r with
      | [] => [[c]]
      | h :: t => (c :: h) :: t

/-- Python `s.split(":")`. -/
def splitColon (s : String) : List String :=
  (splitOnChar (Char.ofNat 58) s.data).map String.mk

/-- Accumulate a decimal digit string into a number; any non-digit fails. -/
def digitsToNat (acc : Nat) : List Char → Option Nat
  | [] => some acc
  | c :: cs =>
    if c.isDigit then digitsToNat (acc * 10 + (c.toNat - 48)) cs else none

/-- Python `int(s)` for plain optionally-negated decimal strings; anything
else raises, modelled as `none`. -/
def strToInt (s : String) : Option Int :=
  match s.data with
  | [] => none
  | c :: cs =>
    if c == Char.ofNat 45 then
      match cs with
      | [] => none
      | _ :: _ => (digitsToNat 0 cs).map (fun n => -(n : Int))
    else (digitsToNat 0 (c :: cs)).map (fun n => (n : Int))

/-- An HTTP response as far as the monitor observes it. -/
structure Response where
  status_code : Int
  text : String
  deriving Repr, DecidableEq

/-- What the HEAD request would yield: a response, or a request exception. -/
inductive HeadOutcome where
  | resp (r : Response)
  | exn
  deriving Repr, DecidableEq

/-- What the GET request would yield: a response or one of the failure
classes distinguished by `_try_get`. -/
inductive GetOutcome where
  | resp (r : Response)
  | timeout
  | connError (e : String)
  | sslError (e : String)
  | reqFail (e : String)
  deriving Repr, DecidableEq

/-- The network environment one `check_once` call runs against. -/
structure ProbeEnv where
  head : HeadOutcome
  get : GetOutcome
  deriving Repr, DecidableEq

/-- The `SiteChecker` configuration (`__init__` fields that matter to the
control flow; the Python set of codes is carried as a list). -/
structure SiteChecker where
  url : String
  timeout : Nat
  ok_codes : List Int
  check_content : Bool
  deriving Repr, DecidableEq

/-- `_simplify_error`: truncate a long error text to 100 characters. -/
def simplifyError (s : String) : String :=
  if s.data.length > 100 then String.mk (s.data.take 100) ++ "..." else s

/-- `_try_head`: `(ok, response?, error-text)`. -/
def tryHead (env : ProbeEnv) : Bool × Option Response × String :=
  match env.head with
  | .exn => (false, none, "HEAD failed")
  | .resp r =>
    if r.status_code == 405 then (false, none, "HEAD not allowed")
    else (true, some r, "")

/-- `_try_get`: `(ok, response?, error-text)`. -/
def tryGet (env : ProbeEnv) : Bool × Option Response × String :=
  match env.get with
  | .resp r => (true, some r, "")
  | .timeout => (false, none, "Connection timeout")
  | .connError e => (false, none, "Connection error: " ++ simplifyError e)
  | .sslError e => (false, none, "SSL error: " ++ simplifyError e)
  | .reqFail e => (false, none, "Request failed: " ++ simplifyError e)

/-- The first keyword of `DOWN_KEYWORDS` occurring in `text`, if any. -/
def findKeyword (text : String) : Option String :=
  DOWN_KEYWORDS.find? (fun kw => substrB kw text)

/-- `_content_has_down_keywords`: scan the lowered body for the first
matching keyword; disabled content checking reports no match. -/
def contentHasDownKeywords (c : SiteChecker) (r : Response) : Bool × String :=
  if c.check_content = false then (false, "")
  else
    match findKeyword (lowerStr r.text) with
    | some kw => (true, "Page contains " ++ quoteStr ++ kw ++ quoteStr)
    | none => (false, "")

/-- `check_once`: HEAD first, fall back to GET; status filtering, then body
keyword filtering for the ambiguous codes 200 and 401 on the HEAD path and
for every accepted code on the GET fallback path. -/
def check_once (c : SiteChecker) (env : ProbeEnv) : Bool × String × Option Int :=
  match tryHead env with
  | (true, some r, _) =>
    let code := r.status_code
    if (c.ok_codes.contains code) = false then
      (false, "HTTP " ++ toString code ++ " (treated as DOWN)", some code)
    else if c.check_content && (code == 200 || code == 401) then
      match tryGet env with
      | (true, some gr, _) =>
        let br := contentHasDownKeywords c gr
        if br.1 then (false, "HTTP " ++ toString code ++ " but " ++ br.2, some code)
        else (true, "HTTP " ++ toString code, some code)
      | (_, _, get_err) => (false, get_err, none)
    else (true, "HTTP " ++ toString code, some code)
  | _ =>
    match tryGet env with
    | (true, some r, _) =>
      let code := r.status_code
      if (c.ok_codes.contains code) = false then
        (false, "HTTP " ++ toString code ++ " (treated as DOWN)", some code)
      else
        let br := contentHasDownKeywords c r
        if br.1 then (false, "HTTP " ++ toString code ++ " but " ++ br.2, some code)
        else (true, "HTTP " ++ toString code, some code)
    | (_, _, err) => (false, err, none)

/-- The while loop of `check_with_confirmation`, with the remaining attempt
budget as fuel (`fuel = max_attempts - attempts`); the result carries the
confirmed flag, the last reason, and the number of attempts performed. -/
def check_with_confirmation_aux (c : SiteChecker) (envs : Nat → ProbeEnv)
    (retries : Nat) : Nat → Nat → Nat → String → Bool × String × Nat
  | 0, attempts, successes, last_info =>
    (decide (retries ≤ successes), last_info, attempts)
  | fuel + 1, attempts, successes, last_info =>
    if retries ≤ successes then (true, last_info, attempts)
    else
      let r := check_once c (envs attempts)
      check_with_confirmation_aux c envs retries fuel (attempts + 1)
        (if r.1 then successes + 1 else 0) r.2.1

/-- `check_with_confirmation`: up to `retries * 2` probes, a consecutive
success counter that resets to 0 on failure, returning whether `retries`
consecutive successes were seen and the reason of the last probe. -/
def check_with_confirmation (c : SiteChecker) (envs : Nat → ProbeEnv)
    (retries delay : Nat) : Bool × String :=
  let r := check_with_confirmation_aux c envs retries (retries * 2) 0 0 ""
  (r.1, r.2.1)

/-- Number of probes a `check_with_confirmation` call performs. -/
def confirmAttempts (c : SiteChecker) (envs : Nat → ProbeEnv) (retries : Nat) : Nat :=
  (check_with_confirmation_aux c envs retries (retries * 2) 0 0 "").2.2

/-- The per-probe outcome stream that the confirmation loop observes. -/
def probeOf (c : SiteChecker) (envs : Nat → ProbeEnv) (i : Nat) : Bool × String :=
  ((check_once c (envs i)).1, (check_once c (envs i)).2.1)

/-- Modelled from the spec: the confirmation automaton as the specification
describes it: run up to `2 * target` probes; a consecutive-success counter
starts at 0, each UP probe increments it, each DOWN probe resets it to 0;
stop as soon as the counter reaches `target` (success) or the budget is
exhausted (failure); return whether the target was reached together with
the reason of the most recent probe. -/
def specConfirmGo (probe : Nat → Bool × String) (target : Nat) :
    Nat → Nat → Nat → String → Bool × String
  | 0, _, counter, lastReason => (decide (target ≤ counter), lastReason)
  | budget + 1, i, counter, lastReason =>
    if target ≤ counter then (true, lastReason)
    else
      let p := probe i
      specConfirmGo probe target budget (i + 1)
        (if p.1 then counter + 1 else 0) p.2

/-- Modelled from the spec: entry point of the spec-level confirmation
automaton, with attempt budget `2 * target`. -/
def specConfirm (probe : Nat → Bool × String) (target : Nat) : Bool × String :=
  specConfirmGo probe target (2 * target) 0 0 ""

/-- `_parse_until`: parse an optional `HH:MM` stop time against the current
clock `now` (seconds since the epoch).  Any malformed value — wrong shape,
non-integer fields, or fields the datetime `replace` call would reject —
is caught and yields `none` (the Python code logs a warning and returns
`None`).  A target not in the future is pushed to the next day. -/
def parse_until (now : Nat) (untilS : Option String) : Option Nat :=
  match untilS with
  | none => none
  | some u =>
    if u = "" then none
    else
      match splitColon u with
      | [hs, ms] =>
        match strToInt hs, strToInt ms with
        | some hh, some mm =>
          if 0 ≤ hh ∧ hh ≤ 23 ∧ 0 ≤ mm ∧ mm ≤ 59 then
            let dayStart := now - now % 86400
            let target := dayStart + hh.toNat * 3600 + mm.toNat * 60
            if target ≤ now then some (target + 86400) else some target
          else none
        | _, _ => none
      | _ => none

/-- The `SiteMonitor` object: configuration plus the mutable
`last_notification` field in its state at the start of a run. -/
structure SiteMonitor where
  checker : SiteChecker
  interval : Nat
  retries : Nat
  retry_delay : Nat
  cooldown : Int
  start_time : Nat
  last_notification : Option Nat
  stop_after_minutes : Option Int
  stop_at_time : Option Nat

/-- `SiteMonitor.__init__`: record the configuration, set `start_time` to
the current clock, clear `last_notification`, and parse the stop time. -/
def SiteMonitor.init (checker : SiteChecker) (interval retries retry_delay : Nat)
    (cooldown : Int) (untilS : Option String) (stop_after : Option Int)
    (now : Nat) : SiteMonitor :=
  { checker := checker, interval := interval, retries := retries,
    retry_delay := retry_delay, cooldown := cooldown, start_time := now,
    last_notification := none, stop_after_minutes := stop_after,
    stop_at_time := parse_until now untilS }

/-- First clause of `_should_stop`: the elapsed-minutes limit has been
reached (`(now - start) / 60 >= stop_after_minutes`, scaled to seconds). -/
def timeLimitHit (mon : SiteMonitor) (now : Nat) : Bool :=
  match mon.stop_after_minutes with
  | some mins => decide ((now : Int) - (mon.start_time : Int) ≥ 60 * mins)
  | none => false

/-- Second clause of `_should_stop`: the wall-clock deadline has passed. -/
def deadlineHit (mon : SiteMonitor) (now : Nat) : Bool :=
  match mon.stop_at_time with
  | some t => decide (now ≥ t)
  | none => false

/-- Zero-padded rendering of `n` to two digits. -/
def pad2 (n : Nat) : String :=
  if n < 10 then "0" ++ toString n else toString n

/-- strftime `%H:%M` of an epoch-seconds timestamp. -/
def fmtHM (t : Nat) : String :=
  pad2 (t % 86400 / 3600) ++ ":" ++ pad2 (t % 3600 / 60)

/-- `_should_stop`: check the elapsed-minutes limit first, then the
wall-clock deadline, with the message of the clause that fired. -/
def should_stop (mon : SiteMonitor) (now : Nat) : Bool × String :=
  if timeLimitHit mon now then
    (true, "Time limit reached (" ++
      (match mon.stop_after_minutes with
       | some mins => toString mins
       | none => "") ++ " minutes)")
  else if deadlineHit mon now then
    (true, "Stop time reached (" ++
      (match mon.stop_at_time with
       | some t => fmtHM t
       | none => "") ++ ")")
  else (false, "")

/-- How one iteration of `SiteMonitor.run` terminated, or how the run
ended; the Python code logs these and maps them to an exit code. -/
inductive StopReason where
  | timeLimit
  | deadline
  | notified
  | interrupted
  deriving Repr, DecidableEq

/-- Everything one iteration of the monitor loop reads from the outside
world: the clock at the stop check, the probe environment of the main
check, the environments of the confirmation probes, the clock at the
cooldown check, what the notifier returns, and whether a keyboard
interrupt arrives at this iteration. -/
structure IterInput where
  now1 : Nat
  probe : ProbeEnv
  confirmEnvs : Nat → ProbeEnv
  now2 : Nat
  notifyResult : Bool
  interrupt : Bool

/-- Observable outcome of a run: the returned exit code, the termination
path, the number of loop iterations entered, the number of `check_once`
calls issued (main checks plus confirmation probes), the number of
notifier calls, the number of times the cooldown-skip branch was taken,
and the final value of `last_notification`. -/
structure RunResult where
  exitCode : Int
  reason : StopReason
  iters : Nat
  probeCount : Nat
  notifySent : Nat
  cooldownSkips : Nat
  lastNotificationOut : Option Nat
  deriving Repr, DecidableEq

/-- The while loop of `SiteMonitor.run`, fuel-bounded.  Per iteration it
mirrors the source: interrupt handling, `_should_stop` (time limit clause
before deadline clause), one `check_once`, on UP a `check_with_confirmation`,
and on a confirmed UP the cooldown gate: when `last_notification` is unset
or the cooldown has elapsed it calls the notifier, stores the current time
in `last_notification` and returns 0 — the notifier result is ignored;
otherwise it takes the cooldown-skip branch and keeps looping.  Returns
`none` when the fuel runs out with the loop still running. -/
def runAux (mon : SiteMonitor) (inputs : Nat → IterInput) :
    Nat → Nat → Option Nat → Nat → Nat → Nat → Option RunResult
  | 0, _, _, _, _, _ => none
  | fuel + 1, i, lastNotif, probeCount, notifySent, skips =>
    let inp := inputs i
    if inp.interrupt then
      some { exitCode := 1, reason := .interrupted, iters := i + 1,
             probeCount := probeCount, notifySent := notifySent,
             cooldownSkips := skips, lastNotificationOut := lastNotif }
    else if timeLimitHit mon inp.now1 then
      some { exitCode := 1, reason := .timeLimit, iters := i + 1,
             probeCount := probeCount, notifySent := notifySent,
             cooldownSkips := skips, lastNotificationOut := lastNotif }
    else if deadlineHit mon inp.now1 then
      some { exitCode := 1, reason := .deadline, iters := i + 1,
             probeCount := probeCount, notifySent := notifySent,
             cooldownSkips := skips, lastNotificationOut := lastNotif }
    else
      let r := check_once mon.checker inp.probe
      let pc1 := probeCount + 1
      if r.1 then
        let cres := check_with_confirmation_aux mon.checker inp.confirmEnvs
          mon.retries (mon.retries * 2) 0 0 ""
        let pc2 := pc1 + cres.2.2
        if cres.1 then
          let eligible : Bool :=
            match lastNotif with
            | none => true
            | some t => decide ((inp.now2 : Int) - (t : Int) ≥ mon.cooldown)
          if eligible then
            some { exitCode := 0, reason := .notified, iters := i + 1,
                   probeCount := pc2, notifySent := notifySent + 1,
                   cooldownSkips := skips, lastNotificationOut := some inp.now2 }
          else
            runAux mon inputs fuel (i + 1) lastNotif pc2 notifySent (skips + 1)
        else
          runAux mon inputs fuel (i + 1) lastNotif pc2 notifySent skips
      else
        runAux mon inputs fuel (i + 1) lastNotif pc1 notifySent skips

/-- `SiteMonitor.run` with full instrumentation of the outcome. -/
def SiteMonitor.runTrace (mon : SiteMonitor) (inputs : Nat → IterInput)
    (fuel : Nat) : Option RunResult :=
  runAux mon inputs fuel 0 mon.last_notification 0 0 0

/-- `SiteMonitor.run` as the caller sees it: the integer exit code alone. -/
def SiteMonitor.run (mon : SiteMonitor) (inputs : Nat → IterInput)
    (fuel : Nat) : Option Int :=
  (SiteMonitor.runTrace mon inputs fuel).map RunResult.exitCode

/-- Replace the notifier results of an input stream, leaving every other
component of every iteration unchanged. -/
def setNotify (inputs : Nat → IterInput) (b : Nat → Bool) : Nat → IterInput :=
  fun i => { inputs i with notifyResult := b i }

/-- The default checker configuration: the default accepted codes
`200,302,303,401` with content checking enabled. -/
def ccDefault : SiteChecker :=
  { url := "https://example.com", timeout := 8,
    ok_codes := [200, 302, 303, 401], check_content := true }

/-- A response with the given status code and body. -/
def respOf (code : Int) (body : String) : Response :=
  { status_code := code, text := body }

/-- A probe environment whose HEAD and GET both answer with `code` and an
empty body. -/
def envOf (code : Int) : ProbeEnv :=
  { head := .resp (respOf code ""), get := .resp (respOf code "") }

/-- A probe environment classified DOWN under the default codes (503). -/
def downEnv : ProbeEnv := envOf 503

/-- Probe stream realising the outcome sequence UP,UP,DOWN,UP,UP,UP, with
the final UP answering 303 so its reason is recognisable. -/
def envsSeq1 : Nat → ProbeEnv := fun i =>
  [envOf 302, envOf 302, downEnv, envOf 302, envOf 302, envOf 303].getD i downEnv

/-- Probe stream realising the outcome sequence UP,DOWN,UP,DOWN,UP,DOWN. -/
def envsSeq2 : Nat → ProbeEnv := fun i =>
  [envOf 302, downEnv, envOf 302, downEnv, envOf 302, downEnv].getD i downEnv

/-- An iteration input whose main check and confirmation probes all report
UP (HTTP 302) and whose notifier would report delivery failure. -/
def iterUpNotifyFail : IterInput :=
  { now1 := 100, probe := envOf 302, confirmEnvs := fun _ => envOf 302,
    now2 := 100, notifyResult := false, interrupt := false }

/-- Input stream for the C1 counterexample: every delivery fails. -/
def inputsC1 : Nat → IterInput := fun _ => iterUpNotifyFail

/-- An iteration input whose probes all report DOWN and with no interrupt. -/
def iterDown : IterInput :=
  { now1 := 100, probe := downEnv, confirmEnvs := fun _ => downEnv,
    now2 := 100, notifyResult := true, interrupt := false }

/-- An iteration input at which a keyboard interrupt arrives. -/
def iterIntr : IterInput :=
  { now1 := 100, probe := downEnv, confirmEnvs := fun _ => downEnv,
    now2 := 100, notifyResult := true, interrupt := true }

/-- Monitor with no stop conditions, one confirmation retry, started at 0. -/
def monPlain : SiteMonitor :=
  SiteMonitor.init ccDefault 60 1 5 600 none none 0

/-- Monitor started with `stop_after = 0` minutes. -/
def monTL : SiteMonitor :=
  SiteMonitor.init ccDefault 60 1 5 600 none (some 0) 0

/-- Monitor started at midnight with a `10:00` stop time. -/
def monDL : SiteMonitor :=
  SiteMonitor.init ccDefault 60 1 5 600 (some "10:00") none 0

/-- Monitor started with the malformed stop time `bogus`. -/
def monBad : SiteMonitor :=
  SiteMonitor.init ccDefault 60 1 5 600 (some "bogus") none 0

/-- Input stream for the malformed-stop-time run: two DOWN iterations,
then an interrupt. -/
def inputsC3 : Nat → IterInput := fun i => if i < 2 then iterDown else iterIntr

/-- Input stream whose clock is past the `10:00` deadline. -/
def inputsLate : Nat → IterInput := fun _ =>
  { now1 := 40000, probe := downEnv, confirmEnvs := fun _ => downEnv,
    now2 := 40000, notifyResult := true, interrupt := false }

/-- The C1 run outcome: delivery fails yet the run reports success. -/
def resC1 : RunResult :=
  { exitCode := 0, reason := .notified, iters := 1, probeCount := 2,
    notifySent := 1, cooldownSkips := 0, lastNotificationOut := some 100 }

/-- The time-limit run outcome used for C5. -/
def resTL : RunResult :=
  { exitCode := 1, reason := .timeLimit, iters := 1, probeCount := 0,
    notifySent := 0, cooldownSkips := 0, lastNotificationOut := none }

/-- Fallback-path probe: HEAD raises, GET answers 302 with a maintenance
body. -/
def envC2 : ProbeEnv := { head := .exn, get := .resp (respOf 302 "maintenance") }

/-- HEAD answers an ambiguous 200 but the follow-up GET times out. -/
def envC10 : ProbeEnv := { head := .resp (respOf 200 ""), get := .timeout }

/-- HEAD answers 401 and the GET body announces maintenance in French. -/
def envC7 : ProbeEnv :=
  { head := .resp (respOf 401 ""),
    get := .resp (respOf 401 "SITE EN COURS DE MAINTENANCE") }

theorem listHasPre_refl : ∀ p : List Char, listHasPre p p = true := by
  intro p
  induction p with
  | nil => rfl
  | cons c cs ih => simp [listHasPre, ih]

theorem listHasPre_append : ∀ (p s t : List Char),
    listHasPre p s = true → listHasPre p (s ++ t) = true := by
  intro p
  induction p with
  | nil => intro s t h; rfl
  | cons a ps ih =>
    intro s t h
    cases s with
    | nil => exact absurd h (by simp [listHasPre])
    | cons c cs =>
      simp only [listHasPre, Bool.and_eq_true] at h
      simp only [List.cons_append, listHasPre, Bool.and_eq_true]
      exact ⟨h.1, ih cs t h.2⟩

theorem listSubstr_nil : ∀ t : List Char, listSubstr [] t = true := by
  intro t
  cases t with
  | nil => rfl
  | cons c cs => simp [listSubstr, listHasPre]

theorem listSubstr_appendL : ∀ (t p s : List Char),
    listSubstr p s = true → listSubstr p (t ++ s) = true := by
  intro t
  induction t with
  | nil => intro p s h; simpa using h
  | cons c cs ih =>
    intro p s h
    have h2 := ih p s h
    simp only [List.cons_append, listSubstr, Bool.or_eq_true]
    exact Or.inr h2

theorem listSubstr_self_append : ∀ (p v : List Char), listSubstr p (p ++ v) = true := by
  intro p v
  cases p with
  | nil => simpa using listSubstr_nil v
  | cons c cs =>
    simp only [List.cons_append, listSubstr, Bool.or_eq_true]
    exact Or.inl (listHasPre_append _ _ _ (listHasPre_refl _))

theorem listSubstr_parts (p u v : List Char) : listSubstr p (u ++ (p ++ v)) = true :=
  listSubstr_appendL u p (p ++ v) (listSubstr_self_append p v)

/-- A keyword is a substring of any string that embeds it between a prefix
and a suffix; this is how a reason string cites its matched keyword. -/
theorem substrB_embed (a x b kw : String) :
    substrB kw (a ++ ((x ++ kw) ++ b)) = true := by
  show listSubstr kw.data (a ++ ((x ++ kw) ++ b)).data = true
  simp only [String.data_append]
  have h : a.data ++ ((x.data ++ kw.data) ++ b.data) =
      (a.data ++ x.data) ++ (kw.data ++ b.data) := by
    simp [List.append_assoc]
  rw [h]
  exact listSubstr_parts kw.data (a.data ++ x.data) b.data

/-- What a successful keyword lookup guarantees. -/
theorem findKeyword_spec {text kw : String} (h : findKeyword text = some kw) :
    kw ∈ DOWN_KEYWORDS ∧ substrB kw text = true := by
  rw [findKeyword] at h
  have h1 := List.mem_of_find?_eq_some h
  have h2 := List.find?_some h
  exact ⟨h1, by simpa using h2⟩

/-- If any keyword occurs in the text, the lookup finds one. -/
theorem findKeyword_isSome_of {text : String}
    (h : ∃ kw ∈ DOWN_KEYWORDS, substrB kw text = true) :
    ∃ kw, findKeyword text = some kw := by
  obtain ⟨kw0, hmem, hsub⟩ := h
  have hs : (findKeyword text).isSome = true := by
    rw [findKeyword, List.find?_isSome]
    exact ⟨kw0, hmem, hsub⟩
  exact Option.isSome_iff_exists.mp hs

/-- The confirmation loop of the code computes exactly the spec-level
consecutive-success automaton, step by step. -/
theorem confirm_aux_spec (c : SiteChecker) (envs : Nat → ProbeEnv) (retries : Nat) :
    ∀ fuel attempts successes last,
      ((check_with_confirmation_aux c envs retries fuel attempts successes last).1,
       (check_with_confirmation_aux c envs retries fuel attempts successes last).2.1) =
      specConfirmGo (probeOf c envs) retries fuel attempts successes last := by
  intro fuel
  induction fuel with
  | zero => intro attempts successes last; rfl
  | succ f ih =>
    intro attempts successes last
    simp only [check_with_confirmation_aux, specConfirmGo, probeOf]
    by_cases h : retries ≤ successes
    · simp only [if_pos h]
    · simp only [if_neg h]
      exact ih (attempts + 1) _ _

/-- `check_with_confirmation` refines the spec-level automaton. -/
theorem confirm_eq_spec (c : SiteChecker) (envs : Nat → ProbeEnv) (retries delay : Nat) :
    check_with_confirmation c envs retries delay = specConfirm (probeOf c envs) retries := by
  show ((check_with_confirmation_aux c envs retries (retries * 2) 0 0 "").1,
        (check_with_confirmation_aux c envs retries (retries * 2) 0 0 "").2.1) =
    specConfirmGo (probeOf c envs) retries (2 * retries) 0 0 ""
  rw [Nat.mul_comm retries 2]
  exact confirm_aux_spec c envs retries (2 * retries) 0 0 ""

/-- Exit-code discipline of the monitor loop: a run that ends in the
notified path returns 0, increments the notification count and records the
notification time; every other ending returns 1 and leaves the
notification count unchanged. -/
theorem runAux_exit (mon : SiteMonitor) (inputs : Nat → IterInput) :
    ∀ fuel i ln pc ns sk res,
      runAux mon inputs fuel i ln pc ns sk = some res →
      (res.reason = .notified →
        res.exitCode = 0 ∧ res.notifySent = ns + 1 ∧ res.lastNotificationOut ≠ none) ∧
      (res.reason ≠ .notified → res.exitCode = 1 ∧ res.notifySent = ns) := by
  intro fuel
  induction fuel with
  | zero => intro i ln pc ns sk res h; cases h
  | succ f ih =>
    intro i ln pc ns sk res h
    simp only [runAux] at h
    split at h
    · injection h with h2; subst h2; simp
    · split at h
      · injection h with h2; subst h2; simp
      · split at h
        · injection h with h2; subst h2; simp
        · split at h
          · split at h
            · split at h
              · injection h with h2; subst h2; simp
              · exact ih _ _ _ _ _ _ h
            · exact ih _ _ _ _ _ _ h
          · exact ih _ _ _ _ _ _ h

/-- Starting a run with `last_notification` unset, the cooldown-skip branch
is unreachable, at most one notification is sent, and it is sent exactly
when the run ends on the notified path, which then succeeds. -/
theorem runAux_none (mon : SiteMonitor) (inputs : Nat → IterInput) :
    ∀ fuel i pc res,
      runAux mon inputs fuel i none pc 0 0 = some res →
      res.cooldownSkips = 0 ∧ res.notifySent ≤ 1 ∧
      (res.reason = .notified ↔ res.notifySent = 1) ∧
      (res.reason = .notified → res.exitCode = 0 ∧ res.lastNotificationOut ≠ none) := by
  intro fuel
  induction fuel with
  | zero => intro i pc res h; cases h
  | succ f ih =>
    intro i pc res h
    simp only [runAux] at h
    split at h
    · injection h with h2; subst h2; simp
    · split at h
      · injection h with h2; subst h2; simp
      · split at h
        · injection h with h2; subst h2; simp
        · split at h
          · split at h
            · injection h with h2; subst h2; simp
            · exact ih _ _ _ h
          · exact ih _ _ _ h

/-- The monitor loop never reads the notifier result: replacing the
delivery outcomes of every iteration changes nothing about the run. -/
theorem runAux_setNotify (mon : SiteMonitor) (inputs : Nat → IterInput) (b : Nat → Bool) :
    ∀ fuel i ln pc ns sk,
      runAux mon (setNotify inputs b) fuel i ln pc ns sk =
      runAux mon inputs fuel i ln pc ns sk := by
  intro fuel
  induction fuel with
  | zero => intro i ln pc ns sk; rfl
  | succ f ih =>
    intro i ln pc ns sk
    simp only [runAux, setNotify, ih]

/-- C1 counterexample: on a run whose notifier always reports delivery
failure, the first eligible confirmed UP still updates last_notification
and the loop still terminates with success (exit code 0), contradicting
the claim that this happens only if notify returned true. -/
theorem claim_C1_counterexample :
    (inputsC1 0).notifyResult = false ∧
    SiteMonitor.run monPlain inputsC1 3 = some 0 ∧
    SiteMonitor.runTrace monPlain inputsC1 3 = some resC1 := by
  refine ⟨rfl, by decide, by decide⟩

/-- C1 amended: the run outcome is entirely independent of the notifier
result — the code discards it — and whenever a run ends on the notified
path it returns 0, has sent exactly one notification and has recorded the
notification time; a failed delivery is therefore never retried. -/
theorem claim_C1_amended :
    (∀ (mon : SiteMonitor) (inputs : Nat → IterInput) (b : Nat → Bool) (fuel : Nat),
      SiteMonitor.runTrace mon (setNotify inputs b) fuel =
        SiteMonitor.runTrace mon inputs fuel) ∧
    (∀ (mon : SiteMonitor) (inputs : Nat → IterInput) (fuel : Nat) (res : RunResult),
      SiteMonitor.runTrace mon inputs fuel = some res → res.reason = .notified →
      res.exitCode = 0 ∧ res.notifySent = 1 ∧ res.lastNotificationOut ≠ none) := by
  constructor
  · intro mon inputs b fuel
    exact runAux_setNotify mon inputs b fuel 0 mon.last_notification 0 0 0
  · intro mon inputs fuel res h hr
    have hx := (runAux_exit mon inputs fuel 0 mon.last_notification 0 0 0 res h).1 hr
    simpa using hx

/-- C1 witness: the amended theorem applied to the failing-notifier run. -/
theorem claim_C1_witness :
    SiteMonitor.runTrace monPlain inputsC1 3 = some resC1 ∧ resC1.reason = .notified ∧
    (resC1.exitCode = 0 ∧ resC1.notifySent = 1 ∧ resC1.lastNotificationOut ≠ none) :=
  ⟨by decide, rfl, claim_C1_amended.2 monPlain inputsC1 3 resC1 (by decide) rfl⟩

/-- C3 counterexample: the malformed stop time bogus is not fatal — the
monitor is constructed with no deadline and its loop runs, issuing two
probes before an external interrupt ends the run. -/
theorem claim_C3_counterexample :
    parse_until 0 (some "bogus") = none ∧
    monBad.stop_at_time = none ∧
    SiteMonitor.runTrace monBad inputsC3 5 =
      some { exitCode := 1, reason := .interrupted, iters := 3, probeCount := 2,
             notifySent := 0, cooldownSkips := 0, lastNotificationOut := none } := by
  refine ⟨by decide, by decide, by decide⟩

/-- C3 amended: a stop-time string that fails to parse is absorbed at
startup — the monitor is built with stop_at_time unset and its deadline
check never fires, so the loop runs with no deadline instead of failing. -/
theorem claim_C3_amended : ∀ (checker : SiteChecker) (interval retries retry_delay : Nat)
    (cooldown : Int) (untilS : Option String) (stop_after : Option Int) (now0 : Nat),
    parse_until now0 untilS = none →
    (SiteMonitor.init checker interval retries retry_delay cooldown untilS stop_after now0).stop_at_time = none ∧
    (∀ t, deadlineHit (SiteMonitor.init checker interval retries retry_delay cooldown untilS stop_after now0) t = false) := by
  intro checker interval retries retry_delay cooldown untilS stop_after now0 h
  refine ⟨by simp [SiteMonitor.init, h], ?_⟩
  intro t
  simp [deadlineHit, SiteMonitor.init, h]

/-- C3 witness: the amended theorem applied to the bogus stop time. -/
theorem claim_C3_witness :
    monBad.stop_at_time = none ∧ deadlineHit monBad 99999 = false :=
  ⟨(claim_C3_amended ccDefault 60 1 5 600 (some "bogus") none 0 (by decide)).1,
   (claim_C3_amended ccDefault 60 1 5 600 (some "bogus") none 0 (by decide)).2 99999⟩

/-- C4: the confirmation routine implements exactly the spec-level
consecutive-success automaton (counter starts at 0, UP increments, DOWN
resets to 0, stop at the target or after twice the target many attempts,
reason of the most recent probe returned); with three required successes
the sequence UP,UP,DOWN,UP,UP,UP confirms on the sixth probe — its reason
is that of the sixth probe — and the alternating sequence exhausts the
budget of six attempts unconfirmed. -/
theorem claim_C4 :
    (∀ (c : SiteChecker) (envs : Nat → ProbeEnv) (retries delay : Nat),
      1 ≤ retries →
      check_with_confirmation c envs retries delay = specConfirm (probeOf c envs) retries) ∧
    check_with_confirmation ccDefault envsSeq1 3 0 = (true, "HTTP 303") ∧
    confirmAttempts ccDefault envsSeq1 3 = 6 ∧
    check_with_confirmation ccDefault envsSeq2 3 0 = (false, "HTTP 503 (treated as DOWN)") ∧
    confirmAttempts ccDefault envsSeq2 3 = 6 := by
  refine ⟨fun c envs retries delay h => confirm_eq_spec c envs retries delay,
    by decide, by decide, by decide, by decide⟩

/-- C4 witness: the refinement conjunct applied at three retries. -/
theorem claim_C4_witness :
    1 ≤ 3 ∧
    check_with_confirmation ccDefault envsSeq1 3 0 =
      specConfirm (probeOf ccDefault envsSeq1) 3 :=
  ⟨by decide, claim_C4.1 ccDefault envsSeq1 3 0 (by decide)⟩

/-- C5 counterexample: three different termination paths — time limit,
deadline, interrupt — all return the same value 1 to the caller, so the
four termination reasons are not distinguishable from the result of run. -/
theorem claim_C5_counterexample :
    (SiteMonitor.runTrace monTL (fun _ => iterDown) 1).map RunResult.reason = some .timeLimit ∧
    (SiteMonitor.runTrace monDL inputsLate 1).map RunResult.reason = some .deadline ∧
    (SiteMonitor.runTrace monPlain (fun _ => iterIntr) 1).map RunResult.reason = some .interrupted ∧
    SiteMonitor.run monTL (fun _ => iterDown) 1 = some 1 ∧
    SiteMonitor.run monDL inputsLate 1 = some 1 ∧
    SiteMonitor.run monPlain (fun _ => iterIntr) 1 = some 1 := by
  refine ⟨by decide, by decide, by decide, by decide, by decide, by decide⟩

/-- C5 amended: the caller can distinguish exactly success from
non-success: a run returns 0 precisely when it terminated by notifying,
and 1 precisely otherwise (time limit, deadline or interrupt); the
specific stop reason is only logged, not returned. -/
theorem claim_C5_amended : ∀ (mon : SiteMonitor) (inputs : Nat → IterInput)
    (fuel : Nat) (res : RunResult),
    SiteMonitor.runTrace mon inputs fuel = some res →
    (res.exitCode = 0 ↔ res.reason = .notified) ∧
    (res.exitCode = 1 ↔ res.reason ≠ .notified) := by
  intro mon inputs fuel res h
  have hx := runAux_exit mon inputs fuel 0 mon.last_notification 0 0 0 res h
  by_cases hr : res.reason = .notified
  · have h0 := hx.1 hr
    constructor
    · exact ⟨fun _ => hr, fun _ => h0.1⟩
    · constructor
      · intro h1; rw [h0.1] at h1; exact absurd h1 (by decide)
      · intro hn; exact absurd hr hn
  · have h1 := hx.2 hr
    constructor
    · constructor
      · intro h0; rw [h1.1] at h0; exact absurd h0 (by decide)
      · intro hn; exact absurd hn hr
    · exact ⟨fun _ => hr, fun _ => h1.1⟩

/-- C5 witness: the amended theorem applied to the time-limit run. -/
theorem claim_C5_witness :
    SiteMonitor.runTrace monTL (fun _ => iterDown) 1 = some resTL ∧
    ((resTL.exitCode = 0 ↔ resTL.reason = .notified) ∧
     (resTL.exitCode = 1 ↔ resTL.reason ≠ .notified)) :=
  ⟨by decide, claim_C5_amended monTL (fun _ => iterDown) 1 resTL (by decide)⟩

/-- C6: a monitor started with stop_after = 0 terminates on the first
iteration through the time-limit clause, with exit code 1 and zero
check_once calls issued. -/
theorem claim_C6 : ∀ (checker : SiteChecker) (interval retries retry_delay : Nat)
    (cooldown : Int) (untilS : Option String) (now0 : Nat)
    (inputs : Nat → IterInput) (fuel : Nat),
    (inputs 0).interrupt = false →
    now0 ≤ (inputs 0).now1 →
    SiteMonitor.runTrace
      (SiteMonitor.init checker interval retries retry_delay cooldown untilS (some 0) now0)
      inputs (fuel + 1) =
      some { exitCode := 1, reason := .timeLimit, iters := 1, probeCount := 0,
             notifySent := 0, cooldownSkips := 0, lastNotificationOut := none } := by
  intro checker interval retries retry_delay cooldown untilS now0 inputs fuel hI hN
  have hT : timeLimitHit
      (SiteMonitor.init checker interval retries retry_delay cooldown untilS (some 0) now0)
      ((inputs 0).now1) = true := by
    simp [timeLimitHit, SiteMonitor.init]
    omega
  have hL : (SiteMonitor.init checker interval retries retry_delay cooldown untilS
      (some 0) now0).last_notification = none := rfl
  simp [SiteMonitor.runTrace, runAux, hI, hT, hL]

/-- C6 witness: the theorem applied to the concrete stop_after = 0 run. -/
theorem claim_C6_witness :
    ((fun _ => iterDown) 0).interrupt = false ∧
    (0 : Nat) ≤ ((fun _ => iterDown) 0).now1 ∧
    SiteMonitor.runTrace (SiteMonitor.init ccDefault 60 1 5 600 none (some 0) 0)
      (fun _ => iterDown) 1 =
      some { exitCode := 1, reason := .timeLimit, iters := 1, probeCount := 0,
             notifySent := 0, cooldownSkips := 0, lastNotificationOut := none } :=
  ⟨rfl, by decide, claim_C6 ccDefault 60 1 5 600 none 0 (fun _ => iterDown) 0 rfl (by decide)⟩

/-- C8: within one run started from the initial state, last_notification
is None at every cooldown check, so the cooldown-skip branch is never
taken, at most one notification is sent, one is sent exactly when the run
ends on the notified path, and that path returns success having set
last_notification. -/
theorem claim_C8 : ∀ (mon : SiteMonitor) (inputs : Nat → IterInput)
    (fuel : Nat) (res : RunResult),
    mon.last_notification = none →
    SiteMonitor.runTrace mon inputs fuel = some res →
    res.cooldownSkips = 0 ∧ res.notifySent ≤ 1 ∧
    (res.reason = .notified ↔ res.notifySent = 1) ∧
    (res.reason = .notified → res.exitCode = 0 ∧ res.lastNotificationOut ≠ none) := by
  intro mon inputs fuel res hln h
  rw [SiteMonitor.runTrace, hln] at h
  exact runAux_none mon inputs fuel 0 0 res h

/-- C8 witness: the theorem applied to a run that notifies on its first
confirmed UP. -/
theorem claim_C8_witness :
    monPlain.last_notification = none ∧
    SiteMonitor.runTrace monPlain inputsC1 3 = some resC1 ∧
    (resC1.cooldownSkips = 0 ∧ resC1.notifySent ≤ 1 ∧
     (resC1.reason = .notified ↔ resC1.notifySent = 1) ∧
     (resC1.reason = .notified → resC1.exitCode = 0 ∧ resC1.lastNotificationOut ≠ none)) :=
  ⟨rfl, by decide, claim_C8 monPlain inputsC1 3 resC1 rfl (by decide)⟩

/-- C9: with retries = 0 the attempt budget is 0, the confirmation loop
performs no probe at all and immediately reports confirmed with an empty
reason string. -/
theorem claim_C9 : ∀ (c : SiteChecker) (envs : Nat → ProbeEnv) (delay : Nat),
    check_with_confirmation c envs 0 delay = (true, "") ∧
    confirmAttempts c envs 0 = 0 := by
  intro c envs delay
  exact ⟨rfl, rfl⟩

/-- C2 counterexample: a probe that reaches the GET fallback path with the
accepted non-ambiguous code 302 and a maintenance body is classified DOWN
with the body inspected, where the claim asserts up equal true with no
content inspection on that path. -/
theorem claim_C2_counterexample :
    ccDefault.ok_codes.contains 302 = true ∧ (302 : Int) ≠ 200 ∧ (302 : Int) ≠ 401 ∧
    check_once ccDefault envC2 =
      (false, "HTTP 302 but Page contains " ++ quoteStr ++ "maintenance" ++ quoteStr,
       some 302) := by
  refine ⟨by decide, by decide, by decide, by decide⟩

/-- C2 amended: on the lightweight-first path an accepted non-ambiguous
status code yields up equal true with no content inspection (the result
does not depend on the GET outcome or any body); on the full-request
fallback path, however, the body of every accepted-status response is
inspected when content checking is on, and a maintenance keyword there
yields up equal false. -/
theorem claim_C2_amended :
    (∀ (c : SiteChecker) (env : ProbeEnv) (r : Response),
      env.head = .resp r → r.status_code ≠ 405 →
      c.ok_codes.contains r.status_code = true →
      r.status_code ≠ 200 → r.status_code ≠ 401 →
      check_once c env = (true, "HTTP " ++ toString r.status_code, some r.status_code)) ∧
    (∀ (c : SiteChecker) (env : ProbeEnv) (g : Response) (kw : String),
      env.head = .exn → env.get = .resp g →
      c.ok_codes.contains g.status_code = true → c.check_content = true →
      findKeyword (lowerStr g.text) = some kw →
      check_once c env =
        (false, "HTTP " ++ toString g.status_code ++ " but " ++
          ("Page contains " ++ quoteStr ++ kw ++ quoteStr), some g.status_code)) := by
  constructor
  · intro c env r hh h405 hok h200 h401
    obtain ⟨eh, eg⟩ := env
    cases hh
    have hin : r.status_code ∈ c.ok_codes := by simpa using hok
    simp [check_once, tryHead, beq_iff_eq, h405, hin, h200, h401]
  · intro c env g kw hh hg hok hcc hkw
    obtain ⟨eh, eg⟩ := env
    cases hh
    cases hg
    have hin : g.status_code ∈ c.ok_codes := by simpa using hok
    simp [check_once, tryHead, tryGet, contentHasDownKeywords, hin, hcc, hkw]

/-- C2 witness: the lightweight-path conjunct applied to a 302 HEAD
answer. -/
theorem claim_C2_witness :
    check_once ccDefault (envOf 302) = (true, "HTTP " ++ toString (302 : Int), some 302) :=
  claim_C2_amended.1 ccDefault (envOf 302) (respOf 302 "") rfl (by decide) (by decide)
    (by decide) (by decide)

/-- C7: a probe with an accepted ambiguous status code (200 or 401), with
content checking on and a body containing some maintenance keyword
case-insensitively, is classified DOWN and the reason string embeds the
matched keyword — on the lightweight-first path (where the inspected body
is the one of the follow-up GET) and on the full-request fallback path. -/
theorem claim_C7 :
    (∀ (c : SiteChecker) (env : ProbeEnv) (r g : Response),
      env.head = .resp r → (r.status_code = 200 ∨ r.status_code = 401) →
      c.ok_codes.contains r.status_code = true → c.check_content = true →
      env.get = .resp g →
      (∃ kw0 ∈ DOWN_KEYWORDS, substrB kw0 (lowerStr g.text) = true) →
      ∃ kw, findKeyword (lowerStr g.text) = some kw ∧ kw ∈ DOWN_KEYWORDS ∧
        check_once c env =
          (false, "HTTP " ++ toString r.status_code ++ " but " ++
            ("Page contains " ++ quoteStr ++ kw ++ quoteStr), some r.status_code) ∧
        substrB kw (check_once c env).2.1 = true) ∧
    (∀ (c : SiteChecker) (env : ProbeEnv) (g : Response),
      env.head = .exn → env.get = .resp g →
      (g.status_code = 200 ∨ g.status_code = 401) →
      c.ok_codes.contains g.status_code = true → c.check_content = true →
      (∃ kw0 ∈ DOWN_KEYWORDS, substrB kw0 (lowerStr g.text) = true) →
      ∃ kw, findKeyword (lowerStr g.text) = some kw ∧ kw ∈ DOWN_KEYWORDS ∧
        check_once c env =
          (false, "HTTP " ++ toString g.status_code ++ " but " ++
            ("Page contains " ++ quoteStr ++ kw ++ quoteStr), some g.status_code) ∧
        substrB kw (check_once c env).2.1 = true) := by
  constructor
  · intro c env r g hh hcode hok hcc hg hkws
    obtain ⟨kw, hkw⟩ := findKeyword_isSome_of hkws
    have hmem := (findKeyword_spec hkw).1
    have heq : check_once c env =
        (false, "HTTP " ++ toString r.status_code ++ " but " ++
          ("Page contains " ++ quoteStr ++ kw ++ quoteStr), some r.status_code) := by
      obtain ⟨eh, eg⟩ := env
      cases hh
      cases hg
      have h405 : r.status_code ≠ 405 := by
        rcases hcode with h | h <;> rw [h] <;> decide
      have hin : r.status_code ∈ c.ok_codes := by simpa using hok
      simp [check_once, tryHead, tryGet, contentHasDownKeywords, beq_iff_eq,
        h405, hin, hcc, hkw, hcode]
    refine ⟨kw, hkw, hmem, heq, ?_⟩
    rw [heq]
    exact substrB_embed ("HTTP " ++ toString r.status_code ++ " but ")
      ("Page contains " ++ quoteStr) quoteStr kw
  · intro c env g hh hg hcode hok hcc hkws
    obtain ⟨kw, hkw⟩ := findKeyword_isSome_of hkws
    have hmem := (findKeyword_spec hkw).1
    have heq : check_once c env =
        (false, "HTTP " ++ toString g.status_code ++ " but " ++
          ("Page contains " ++ quoteStr ++ kw ++ quoteStr), some g.status_code) := by
      obtain ⟨eh, eg⟩ := env
      cases hh
      cases hg
      have hin : g.status_code ∈ c.ok_codes := by simpa using hok
      simp [check_once, tryHead, tryGet, contentHasDownKeywords, hin, hcc, hkw]
    refine ⟨kw, hkw, hmem, heq, ?_⟩
    rw [heq]
    exact substrB_embed ("HTTP " ++ toString g.status_code ++ " but ")
      ("Page contains " ++ quoteStr) quoteStr kw

/-- C7 witness: the lightweight-path conjunct applied to a 401 probe whose
GET body announces maintenance in upper case. -/
theorem claim_C7_witness :
    (∃ kw0 ∈ DOWN_KEYWORDS,
      substrB kw0 (lowerStr "SITE EN COURS DE MAINTENANCE") = true) ∧
    (∃ kw, findKeyword (lowerStr (respOf 401 "SITE EN COURS DE MAINTENANCE").text) = some kw ∧
      kw ∈ DOWN_KEYWORDS ∧
      check_once ccDefault envC7 =
        (false, "HTTP " ++ toString ((respOf 401 "").status_code) ++ " but " ++
          ("Page contains " ++ quoteStr ++ kw ++ quoteStr), some ((respOf 401 "").status_code)) ∧
      substrB kw (check_once ccDefault envC7).2.1 = true) :=
  ⟨⟨"maintenance", by decide, by decide⟩,
   claim_C7.1 ccDefault envC7 (respOf 401 "") (respOf 401 "SITE EN COURS DE MAINTENANCE")
     rfl (Or.inr rfl) (by decide) rfl rfl ⟨"maintenance", by decide, by decide⟩⟩

/-- C10: when HEAD succeeds with an accepted ambiguous code but the
follow-up GET fails at transport level, check_once reports DOWN with the
GET error text and a None status code — the code obtained from HEAD is
discarded. -/
theorem claim_C10 : ∀ (c : SiteChecker) (env : ProbeEnv) (r : Response),
    env.head = .resp r →
    (r.status_code = 200 ∨ r.status_code = 401) →
    c.ok_codes.contains r.status_code = true →
    c.check_content = true →
    (tryGet env).1 = false →
    check_once c env = (false, (tryGet env).2.2, none) := by
  intro c env r hh hcode hok hcc hgf
  obtain ⟨eh, eg⟩ := env
  cases hh
  have h405 : r.status_code ≠ 405 := by
    rcases hcode with h | h <;> rw [h] <;> decide
  have hin : r.status_code ∈ c.ok_codes := by simpa using hok
  cases eg with
  | resp g => simp [tryGet] at hgf
  | timeout => simp [check_once, tryHead, tryGet, beq_iff_eq, h405, hin, hcc, hcode]
  | connError e => simp [check_once, tryHead, tryGet, beq_iff_eq, h405, hin, hcc, hcode]
  | sslError e => simp [check_once, tryHead, tryGet, beq_iff_eq, h405, hin, hcc, hcode]
  | reqFail e => simp [check_once, tryHead, tryGet, beq_iff_eq, h405, hin, hcc, hcode]

/-- C10 witness: the theorem applied to a 200 HEAD answer followed by a
GET timeout. -/
theorem claim_C10_witness :
    (tryGet envC10).1 = false ∧
    check_once ccDefault envC10 = (false, (tryGet envC10).2.2, none) :=
  ⟨rfl, claim_C10 ccDefault envC10 (respOf 200 "") rfl (Or.inl rfl) (by decide) rfl rfl⟩
